import Mathlib

/-!
Shallow embedding of code-examples-code-conventions.cpp.

The source file is a catalog of ten coding-convention examples plus a main
that prints a banner. Each operation is modelled as a total Lean function
returning its observable console effects, and, where a claim needs it, an
additional result: the list of helper calls performed, the number of live
heap allocations left behind, the mutex operations performed, or the
outcome of a try/catch block. Machine state that no claim observes is not
modelled.
-/

/-- Observable console effects of running one operation: text written to
standard output, text written to standard error, and whether an exception
propagated out of the call. -/
structure OpExec where
  out : String
  err : String
  threw : Bool
deriving DecidableEq, Repr

/-- Effects of an operation whose body contains no I/O statement and no
construct that can raise: nothing on either stream, no propagated failure. -/
def OpExec.silent : OpExec := ⟨"", "", false⟩

/-- Helper bool error() has the body: return false. -/
def error : Bool := false

/-- Helper int calculate() has the body: return 10. It contains no throw, so
it is modelled as always succeeding with 10. -/
def calculate : Except String Int := Except.ok 10

/-- The two no-op helpers a Rule 2 execution may invoke: void func() and
void do_other(), both with empty bodies. -/
inductive Callee where
  | func
  | do_other
deriving DecidableEq, Repr

/-- Console effects of each helper: both bodies are empty. -/
def calleeRun : Callee → OpExec
  | Callee.func => OpExec.silent
  | Callee.do_other => OpExec.silent

namespace Rule2_Structure

/-- Rule2_Structure::example(bool x): if (x) invoke func() and return,
else invoke do_other(). The result is the sequence of helper calls made. -/
def exampleCalls (x : Bool) : List Callee :=
  if x then [Callee.func] else [Callee.do_other]

/-- Console effects of Rule2_Structure::example: the concatenated output of
the helpers it calls; the body itself prints nothing and cannot throw. -/
def exampleRun (x : Bool) : OpExec :=
  ⟨String.join ((exampleCalls x).map (fun c => (calleeRun c).out)), "", false⟩

end Rule2_Structure

namespace Rule3_Memory

/-- The manual-release variant Rule3_Memory::unsafe (its name is a Lean
keyword, hence the name manualLive here), modelled as the number of User
objects still allocated when it returns, given the value of error():
new User() allocates one; the early return when error() holds skips the
delete statement; otherwise delete u releases it. -/
def manualLive (e : Bool) : Nat :=
  let live := 1
  if e then live else live - 1

/-- Live allocations left by Rule3_Memory::unsafe as written, with the
actual error(). -/
def manual : Nat := manualLive error

/-- Rule3_Memory::safe modelled the same way: make_unique allocates one User,
and the unique_ptr destructor releases it on every exit path, both on the
early return when error() holds and at normal scope exit. -/
def safeLive (e : Bool) : Nat :=
  let live := 1
  if e then live - 1 else live - 1

/-- Live allocations left by safe() as written, with the actual error(). -/
def safe : Nat := safeLive error

/-- Console effects of Rule3_Memory::unsafe: the body performs no I/O. -/
def manualRun : OpExec := OpExec.silent

/-- Console effects of safe(): the body performs no I/O. -/
def safeRun : OpExec := OpExec.silent

end Rule3_Memory

namespace Rule4_Const

/-- Rule4_Const::print(const std::string& str) writes str to standard
output and nothing else. -/
def printRun (s : String) : OpExec := ⟨s, "", false⟩

/-- Value of the referenced string after print returns: the parameter is a
reference to const, so the body cannot assign through it and only reads it. -/
def printArgAfter (s : String) : String := s

end Rule4_Const

/-- A single operation on the shared mutex m of Rule 5. -/
inductive MutexOp where
  | lock
  | unlock
deriving DecidableEq, Repr

/-- Apply a sequence of mutex operations to the locked state of m. -/
def runMutexOps (locked : Bool) : List MutexOp → Bool
  | [] => locked
  | MutexOp.lock :: rest => runMutexOps true rest
  | MutexOp.unlock :: rest => runMutexOps false rest

namespace Rule5_RAII

/-- process_data() has an empty body, so it cannot throw. -/
def process_dataThrows : Bool := false

/-- bad_lock: m.lock(); process_data(); m.unlock(); — if the body threw, the
explicit unlock would be skipped during unwinding. -/
def bad_lockOps (bodyThrows : Bool) : List MutexOp :=
  if bodyThrows then [MutexOp.lock] else [MutexOp.lock, MutexOp.unlock]

/-- good_lock: std::lock_guard acquires m on construction and its destructor
releases m on every exit path, normal return or stack unwinding alike. -/
def good_lockOps (_bodyThrows : Bool) : List MutexOp :=
  [MutexOp.lock, MutexOp.unlock]

/-- State of m after good_lock() as written, run from a given initial state,
with the actual process_data. -/
def good_lockFinal (locked : Bool) : Bool :=
  runMutexOps locked (good_lockOps process_dataThrows)

/-- Console effects of good_lock(): the body performs no I/O. -/
def good_lockRun : OpExec := OpExec.silent

/-- Console effects of bad_lock(): the body performs no I/O. -/
def bad_lockRun : OpExec := OpExec.silent

end Rule5_RAII

/-- Outcome of the try/catch block of Rule 6: what was written to standard
error and whether the catch branch ran. -/
structure CatchExec where
  err : String
  caught : Bool
deriving DecidableEq, Repr

namespace Rule6_ErrorHandling

/-- old_style() has a fully commented-out body: it does nothing. -/
def old_styleRun : OpExec := OpExec.silent

/-- new_style with an arbitrary outcome of the attempted computation:
try to bind the result of calculate(); on a propagated failure e, write
the text Error: followed by e.what() to standard error. The catch clause
swallows the failure, so new_style itself never propagates one. -/
def new_styleWith (c : Except String Int) : CatchExec :=
  match c with
  | Except.ok _ => ⟨"", false⟩
  | Except.error msg => ⟨"Error: " ++ msg, true⟩

/-- new_style() as written, attempting the actual calculate(). -/
def new_style : CatchExec := new_styleWith calculate

/-- Console effects of new_style() as written: it prints nothing to standard
output, writes what the catch block wrote to standard error, and never
propagates a failure because the catch clause handles it. -/
def new_styleRun : OpExec := ⟨"", new_style.err, false⟩

end Rule6_ErrorHandling

namespace Rule7_Performance

/-- Rule7_Performance::process(const std::vector<int>& data): empty body,
read-only access; no console effects. -/
def processRun (_data : List Int) : OpExec := OpExec.silent

end Rule7_Performance

namespace Rule8_Casting

/-- Rule8_Casting::example(): builds a Derived, forms a Base pointer to it
and performs a static_cast between the pointer types; all effects are local
and the body performs no I/O. -/
def exampleRun : OpExec := OpExec.silent

end Rule8_Casting

/-- The two spellings of a null argument discussed by Rule 9: the NULL macro
and the nullptr keyword. -/
inductive NullLit where
  | NULLmacro
  | nullptrLit
deriving DecidableEq, Repr

/-- The two overloads of func_overload: void func_overload(int) and
void func_overload(char*). -/
inductive Overload where
  | intOv
  | charPtrOv
deriving DecidableEq, Repr

/-- Overload resolution for a call func_overload(lit): NULL expands to the
integer literal 0 and selects the int overload; nullptr has the dedicated
null-pointer type, which converts to char* but not to int, selecting the
pointer overload. -/
def resolveOverload : NullLit → Overload
  | NullLit.NULLmacro => Overload.intOv
  | NullLit.nullptrLit => Overload.charPtrOv

/-- Standard output written by the body of each overload. -/
def func_overloadOut : Overload → String
  | Overload.intOv => "Called func(int)\n"
  | Overload.charPtrOv => "Called func(char*)\n"

namespace Rule9_Nullptr

/-- The overload the single live call func_overload(nullptr) resolves to. -/
def exampleCall : Overload := resolveOverload NullLit.nullptrLit

/-- Console effects of Rule9_Nullptr::example(): the output of the resolved
overload; nothing is written to standard error and nothing throws. -/
def exampleRun : OpExec := ⟨func_overloadOut exampleCall, "", false⟩

end Rule9_Nullptr

namespace Rule10_Namespaces

/-- Rule10_Namespaces::print() writes Hello World to standard output. -/
def printRun : OpExec := ⟨"Hello World", "", false⟩

end Rule10_Namespaces

/-- Result of running the whole program: standard output, standard error
and the process exit code. -/
structure MainExec where
  out : String
  err : String
  exitCode : Nat
deriving DecidableEq, Repr

/-- main(): writes the banner followed by std::endl (a newline) to standard
output and returns 0. It is modelled as a function of the process
environment, which the body never reads. -/
def mainRun (_env : List String) : MainExec :=
  ⟨"C++ Code Examples successfully compiled.\n", "", 0⟩

/-- C1: running the program writes exactly one line, the literal text
C++ Code Examples successfully compiled. followed by a newline, to standard
output, writes nothing to standard error, and returns exit code 0. -/
theorem main_writes_banner (env : List String) :
    (mainRun env).out = "C++ Code Examples successfully compiled.\n" ∧
    ((mainRun env).out.toList.count '\n' = 1) ∧
    ((mainRun env).out.toList.getLast? = some '\n') ∧
    (mainRun env).err = "" ∧
    (mainRun env).exitCode = 0 :=
  ⟨rfl, rfl, rfl, rfl, rfl⟩

/-- C1 witness: the C1 theorem instantiated at the empty environment. -/
theorem main_writes_banner_witness :
    (mainRun []).out = "C++ Code Examples successfully compiled.\n" ∧
    ((mainRun []).out.toList.count '\n' = 1) ∧
    ((mainRun []).out.toList.getLast? = some '\n') ∧
    (mainRun []).err = "" ∧
    (mainRun []).exitCode = 0 :=
  main_writes_banner []

/-- C2 counterexample: contrary to the claim, Rule9_Nullptr::example does
produce output, namely the line printed by the char* overload, and
Rule4_Const::print invoked on the string abc prints abc; neither output is
empty. -/
theorem rule9_and_rule4_not_silent :
    Rule9_Nullptr.exampleRun.out = "Called func(char*)\n" ∧
    ¬(Rule9_Nullptr.exampleRun.out = "") ∧
    (Rule4_Const.printRun ("abc")).out = "abc" ∧
    ¬((Rule4_Const.printRun ("abc")).out = "") := by
  decide

/-- C2 amended: invoking any single illustrative operation of sections 4.1
through 4.10 in isolation neither throws nor writes to standard error, and
its standard output is Hello World for Rule10_Namespaces::print, the line
Called func(char*) for Rule9_Nullptr::example, the argument text for
Rule4_Const::print, and empty for every other operation. -/
theorem section_operations_outputs :
    Rule10_Namespaces.printRun = ⟨"Hello World", "", false⟩ ∧
    Rule9_Nullptr.exampleRun = ⟨"Called func(char*)\n", "", false⟩ ∧
    (∀ s, Rule4_Const.printRun s = ⟨s, "", false⟩) ∧
    (∀ x, Rule2_Structure.exampleRun x = OpExec.silent) ∧
    Rule3_Memory.manualRun = OpExec.silent ∧
    Rule3_Memory.safeRun = OpExec.silent ∧
    Rule5_RAII.bad_lockRun = OpExec.silent ∧
    Rule5_RAII.good_lockRun = OpExec.silent ∧
    Rule6_ErrorHandling.old_styleRun = OpExec.silent ∧
    Rule6_ErrorHandling.new_styleRun = OpExec.silent ∧
    (∀ d, Rule7_Performance.processRun d = OpExec.silent) ∧
    Rule8_Casting.exampleRun = OpExec.silent :=
  ⟨rfl, rfl, fun _ => rfl, fun x => by cases x <;> rfl,
   rfl, rfl, rfl, rfl, rfl, rfl, fun _ => rfl, rfl⟩

/-- C3: new_style never enters its catch branch and writes nothing to
standard error, because calculate succeeds; for an arbitrary outcome of the
attempted computation, a message reaches standard error only if the
computation propagated a failure carrying that message. -/
theorem new_style_catches_nothing :
    Rule6_ErrorHandling.new_style.caught = false ∧
    Rule6_ErrorHandling.new_style.err = "" ∧
    calculate = Except.ok 10 ∧
    ∀ c, ¬((Rule6_ErrorHandling.new_styleWith c).err = "") →
      ∃ msg, c = Except.error msg ∧
        (Rule6_ErrorHandling.new_styleWith c).err = "Error: " ++ msg := by
  refine ⟨rfl, rfl, rfl, fun c h => ?_⟩
  cases c with
  | ok v => exact absurd rfl h
  | error msg => exact ⟨msg, rfl, rfl⟩

/-- C3 witness: the conditional part of the C3 theorem instantiated at a
computation that fails with the message boom. -/
theorem new_style_catches_nothing_witness :
    ∃ msg, (Except.error ("boom") : Except String Int) = Except.error msg ∧
      (Rule6_ErrorHandling.new_styleWith (Except.error ("boom"))).err =
        "Error: " ++ msg :=
  new_style_catches_nothing.2.2.2 (Except.error ("boom")) (by decide)

/-- C4: for every outcome of error(), Rule3_Memory::safe leaves zero User
objects allocated when it returns, the early-return path included. -/
theorem safe_releases_on_every_path :
    (∀ e, Rule3_Memory.safeLive e = 0) ∧ Rule3_Memory.safe = 0 := by
  decide

/-- C5: the live call in Rule9_Nullptr::example, which passes nullptr,
resolves to the char* overload of func_overload, not the int overload, and
the output of the example is exactly the output of that overload. -/
theorem nullptr_selects_pointer_overload :
    Rule9_Nullptr.exampleCall = resolveOverload NullLit.nullptrLit ∧
    Rule9_Nullptr.exampleCall = Overload.charPtrOv ∧
    ¬(Rule9_Nullptr.exampleCall = Overload.intOv) ∧
    Rule9_Nullptr.exampleRun.out = func_overloadOut Overload.charPtrOv := by
  decide

/-- C6: whatever the initial state of the mutex m and whether or not the
body throws, the operations performed by Rule5_RAII::good_lock leave m
unlocked when the call exits. -/
theorem good_lock_releases_mutex :
    (∀ bodyThrows locked,
      runMutexOps locked (Rule5_RAII.good_lockOps bodyThrows) = false) ∧
    (∀ locked, Rule5_RAII.good_lockFinal locked = false) := by
  decide

/-- C7: Rule4_Const::print takes its argument by reference to const and
leaves the referenced string unchanged. -/
theorem print_does_not_mutate (s : String) :
    Rule4_Const.printArgAfter s = s :=
  rfl

/-- C7 witness: the C7 theorem instantiated at a concrete string. -/
theorem print_does_not_mutate_witness :
    Rule4_Const.printArgAfter ("sample text") = "sample text" :=
  print_does_not_mutate ("sample text")

/-- C8: Rule2_Structure::example invokes func when its argument is true and
do_other when it is false, and in every execution it invokes exactly one
helper, so never both. -/
theorem structure_branches_exclusive :
    Rule2_Structure.exampleCalls true = [Callee.func] ∧
    Rule2_Structure.exampleCalls false = [Callee.do_other] ∧
    (∀ x, (Rule2_Structure.exampleCalls x).length = 1) := by
  decide

/-- C9: the program is deterministic: the result of main does not depend on
the process environment, so any two runs produce identical output. -/
theorem main_deterministic (env1 env2 : List String) :
    mainRun env1 = mainRun env2 :=
  rfl

/-- C9 witness: the C9 theorem instantiated at two concrete environments. -/
theorem main_deterministic_witness :
    mainRun [] = mainRun (["PATH=/bin"]) :=
  main_deterministic [] (["PATH=/bin"])

/-- C10: error() always returns false, so Rule3_Memory::unsafe reaches its
delete statement and leaves zero User objects allocated, even though its
early-return path, were it taken, would leak one. -/
theorem error_false_manual_release_no_leak :
    error = false ∧ Rule3_Memory.manual = 0 ∧ Rule3_Memory.manualLive true = 1 := by
  decide
